import Mathlib

/-!
Verification development for the fxtrader MetaTrader bridge.

The Python sources are shallowly embedded: prices and volumes are modelled
as rationals, the MT5 venue adapter (quote lookup, margin checks, order
sends, filling modes) is modelled as an oracle environment `Env`, and each
service method becomes a pure function from its inputs and the oracle to a
record of its state changes and emitted messages.
-/

set_option allowUnsafeReducibility true
attribute [local semireducible] Rat.add Rat.sub Rat.mul Rat.div Rat.neg Rat.inv

namespace Fxtrader

/-- Floor of a rational, written with `Int.fdiv` so that it reduces in the
kernel. -/
def ratFloor (x : ℚ) : ℤ := Int.fdiv x.num (x.den : ℤ)

/-- Python 3 `round` on a rational: nearest integer, ties to even
(banker's rounding).  Used by the `round_price` helpers in
`trade_repository.can_match_trades` and `trade_manager.execute_matched_trades`. -/
def pythonRound (x : ℚ) : ℤ :=
  let f : ℤ := ratFloor x
  let r : ℚ := x - f
  if r < 1/2 then f
  else if 1/2 < r then f + 1
  else if f % 2 = 0 then f else f + 1

/-- `round_price(price) = round(price / tick_size) * tick_size` — the
symbol-specific price rounding used throughout the matching code. -/
def round_price (tick_size : ℚ) (price : ℚ) : ℚ :=
  (pythonRound (price / tick_size) : ℚ) * tick_size

/-- `models/trade.py` `PoolTrade` (pydantic model).  `created_at` is kept as
an optional integer timestamp. -/
structure PoolTrade where
  trade_id : String
  user_id : String
  symbol : String
  trade_code : ℤ
  trade_type : String
  order_type : String
  account_type : String
  account_name : String
  leverage : ℤ
  volume : ℚ
  entry_price : ℚ
  stop_loss : ℚ
  take_profit : ℚ
  timestamp : ℤ
  comment : String := ""
  slippage : ℤ := 0
  expiration : ℤ
  magic : ℤ := 0
  ticket : ℤ := 0
  created_at : Option ℤ := none
  profit : ℚ := 0
  status : String := "PENDING"
deriving Repr, DecidableEq, Inhabited

/-- Subset of the MT5 `symbol_info` record read by the code.  Fields read
through `getattr`/`try` with fallbacks are optional. -/
structure SymbolInfo where
  trade_tick_size : Option ℚ := none
  stops_level : Option ℚ := none
  digits : Option ℤ := none
  volume_min : ℚ := 0
  volume_max : ℚ := 0
  trade_contract_size : ℚ := 1
  filling_mode : ℤ := 1
deriving Repr, DecidableEq, Inhabited

/-- Subset of the MT5 `symbol_info_tick` record read by the code. -/
structure Tick where
  bid : ℚ
  ask : ℚ
  time : ℤ
deriving Repr, DecidableEq, Inhabited

/-- Outcome of one `mt5_client.order_send` call: `ok` is
`result is not None and result.retcode == 10009`, `order` the venue ticket,
`message` the error text returned alongside. -/
structure SendResult where
  ok : Bool := false
  order : ℤ := 0
  message : String := ""
deriving Repr, DecidableEq, Inhabited

/-- Record of one `send_trade_response` call (and of the response dicts
queued directly), i.e. the argument vector of
`TradeManager.send_trade_response`. -/
structure Resp where
  type : String := "trade_response"
  trade_id : String
  trade_code : ℤ := 0
  user_id : String
  status : String
  matched_trade_id : String := ""
  error : Option String := none
  matched_volume : ℚ := 0
  remaining_volume : ℚ := 0
deriving Repr, DecidableEq, Inhabited

/-- Oracle environment: the external MT5 venue adapter and the other
effectful collaborators, fixed for the duration of one operation.  The three
`order_send` call sites of `execute_matched_trades` get one result each. -/
structure Env where
  symbol_info : String → Option SymbolInfo := fun _ => none
  tick : String → Option Tick := fun _ => none
  check_margin : String → ℚ → String → Bool := fun _ _ _ => false
  filling_mode : String → Option ℤ := fun _ => none
  close_order : ℤ → Bool := fun _ => false
  gen_magic : String → ℤ := fun _ => 0
  send1 : SendResult := {}
  send2 : SendResult := {}
  send_rem : SendResult := {}
  user_balance : String → String → ℚ := fun _ _ => 0
  market_exec : PoolTrade → Bool := fun _ => false
  now : ℤ := 0

/-- Convenience constructor for a `Resp` record. -/
def mkResp (tid : String) (tcode : ℤ) (uid status mid : String)
    (err : Option String) (mv rv : ℚ) : Resp :=
  { trade_id := tid, trade_code := tcode, user_id := uid, status := status,
    matched_trade_id := mid, error := err, matched_volume := mv,
    remaining_volume := rv }

/-! ## TradeRepository (`repositories/trade_repository.py`) -/

/-- `TradeRepository.queue_message`: `lpush` the message at the head of the
Redis list `message_queue`, then `rpop` the tail when the length exceeds
1000.  The head of the Lean list is the head (left end) of the Redis list. -/
def queue_message (q : List String) (m : String) : List String :=
  let q' := m :: q
  if q'.length > 1000 then q'.dropLast else q'

/-- Enqueue a batch of messages in order via `queue_message`. -/
def enqueue_all (q : List String) (ms : List String) : List String :=
  ms.foldl queue_message q

/-- The redelivery loop of `WebSocketClient.reconnect` (lines 141–146):
`while llen > 0: m := lpop; send m; on failure lpush m back`.  `send` is the
oracle for `websocket.send`; the loop is fuel-indexed because a persistently
failing send retries the same head forever.  Returns the sequence of
messages actually sent, and the remaining queue when the fuel runs out. -/
def reconnect_drain (send : String → Bool) : Nat → List String → List String × List String
  | 0, q => ([], q)
  | Nat.succ _, [] => ([], [])
  | Nat.succ fuel, m :: q =>
    if send m then
      let (s, r) := reconnect_drain send fuel q
      (m :: s, r)
    else
      reconnect_drain send fuel (m :: q)

/-- The predicate of the `expired_trades` comprehension in
`TradeRepository.cleanup_trade_pool`. -/
def expired_pred (now : ℤ) (t : PoolTrade) : Bool :=
  t.trade_id ≠ "" && t.expiration > 0 && t.expiration ≤ now

/-- The predicate of the pool-rebuilding comprehension in
`TradeRepository.cleanup_trade_pool`. -/
def keep_pred (now : ℤ) (t : PoolTrade) : Bool :=
  t.trade_id = "" || t.expiration = 0 || t.expiration > now

/-- The EXPIRED response dict built for each expired trade in
`cleanup_trade_pool`. -/
def expired_response (t : PoolTrade) : Resp :=
  { trade_id := t.trade_id, user_id := t.user_id, status := "EXPIRED",
    matched_trade_id := "" }

/-- `TradeRepository.cleanup_trade_pool`: rebuild the pool keeping entries
with empty id, zero expiration or future expiration, and queue an EXPIRED
response for every non-empty-id entry whose expiration has lapsed. -/
def cleanup_trade_pool (now : ℤ) (pool : List PoolTrade) :
    List PoolTrade × List Resp :=
  (pool.filter (keep_pred now), (pool.filter (expired_pred now)).map expired_response)

/-- The inner `validate_sl_tp` of `TradeRepository.can_match_trades`:
falsy (`0`) stop-loss/take-profit values are skipped, and the whole check is
vacuous when `stops_level == 0`. -/
def validate_sl_tp_match (tick_size stops_level : ℚ) (t : PoolTrade) : Bool :=
  let minD := stops_level * tick_size
  let ep := round_price tick_size t.entry_price
  let sl : ℚ := if t.stop_loss ≠ 0 then round_price tick_size t.stop_loss else 0
  let tp : ℚ := if t.take_profit ≠ 0 then round_price tick_size t.take_profit else 0
  if stops_level = 0 then true
  else if sl ≠ 0 ∧ |ep - sl| < minD then false
  else if tp ≠ 0 ∧ |ep - tp| < minD then false
  else true

/-- Membership in `limit_types`. -/
def isLimit (s : String) : Prop := s = "BUY_LIMIT" ∨ s = "SELL_LIMIT"

/-- Membership in `stop_types`. -/
def isStop (s : String) : Prop := s = "BUY_STOP" ∨ s = "SELL_STOP"

instance (s : String) : Decidable (isLimit s) := by unfold isLimit; infer_instance

instance (s : String) : Decidable (isStop s) := by unfold isStop; infer_instance

/-- `TradeRepository.can_match_trades`, translated branch for branch.  The
`getattr` defaults are 0.01 for `trade_tick_size` and 0 for `stops_level`;
`get_market_price` returns the bid of the current tick and `none` on any
lookup failure.  Note the unconditional `return True` as soon as either
order is MARKET (line 126), which precedes the STOP-vs-MARKET branch. -/
def can_match_trades (env : Env) (t1 t2 : PoolTrade) : Bool :=
  if t1.trade_type = t2.trade_type ∨ t1.symbol ≠ t2.symbol ∨
      t1.account_type ≠ t2.account_type then false
  else
    match env.symbol_info t1.symbol with
    | none => false
    | some si =>
      let ts := si.trade_tick_size.getD (1/100)
      let lvl := si.stops_level.getD 0
      let r := round_price ts
      if ¬ (validate_sl_tp_match ts lvl t1 ∧ validate_sl_tp_match ts lvl t2) then false
      else
        let mkt : Option ℚ := (env.tick t1.symbol).map (fun tk => tk.bid)
        if t1.order_type = "MARKET" ∨ t2.order_type = "MARKET" then true
        else if isLimit t1.order_type ∧ isLimit t2.order_type then
          if t1.order_type = "BUY_LIMIT" ∧ t2.order_type = "SELL_LIMIT" then
            decide (r t1.entry_price ≥ r t2.entry_price)
          else if t1.order_type = "SELL_LIMIT" ∧ t2.order_type = "BUY_LIMIT" then
            decide (r t1.entry_price ≤ r t2.entry_price)
          else false
        else if isStop t1.order_type ∧ isLimit t2.order_type then
          if t1.order_type = "BUY_STOP" ∧ t2.order_type = "SELL_LIMIT" then
            decide (r t1.entry_price ≥ r t2.entry_price)
          else if t1.order_type = "SELL_STOP" ∧ t2.order_type = "BUY_LIMIT" then
            decide (r t1.entry_price ≤ r t2.entry_price)
          else false
        else if isStop t2.order_type ∧ isLimit t1.order_type then
          if t1.order_type = "BUY_LIMIT" ∧ t2.order_type = "SELL_STOP" then
            decide (r t1.entry_price ≥ r t2.entry_price)
          else if t1.order_type = "SELL_LIMIT" ∧ t2.order_type = "BUY_STOP" then
            decide (r t1.entry_price ≤ r t2.entry_price)
          else false
        else if (isStop t1.order_type ∧ t2.order_type = "MARKET") ∨
            (isStop t2.order_type ∧ t1.order_type = "MARKET") then
          match mkt with
          | none => false
          | some mp =>
            let rm := r mp
            if isStop t1.order_type then
              if t1.order_type = "BUY_STOP" then decide (rm ≥ r t1.entry_price)
              else decide (rm ≤ r t1.entry_price)
            else
              if t2.order_type = "BUY_STOP" then decide (rm ≥ r t2.entry_price)
              else decide (rm ≤ r t2.entry_price)
        else if isStop t1.order_type ∧ isStop t2.order_type then
          match mkt with
          | none => false
          | some mp =>
            let rm := r mp
            if t1.order_type = "BUY_STOP" ∧ t2.order_type = "SELL_STOP" then
              decide (rm ≥ r t1.entry_price ∧ rm ≤ r t2.entry_price)
            else if t1.order_type = "SELL_STOP" ∧ t2.order_type = "BUY_STOP" then
              decide (rm ≤ r t1.entry_price ∧ rm ≥ r t2.entry_price)
            else false
        else false

/-- Eligibility of a pool entry in `find_matching_trade`'s scan: non-empty
`trade_id` and `can_match_trades` against the incoming order. -/
def eligF (env : Env) (newT : PoolTrade) (t : PoolTrade) : Bool :=
  decide (t.trade_id ≠ "") && can_match_trades env newT t

/-- The scan loop of `TradeRepository.find_matching_trade`: running best
index (`-1` initially) and running oldest timestamp (`none` models
`float('inf')`); an eligible entry replaces the best strictly-older one. -/
def best_match_loop (elig : PoolTrade → Bool) :
    List PoolTrade → Nat → ℤ → Option ℤ → ℤ
  | [], _, best, _ => best
  | t :: rest, i, best, oldest =>
    if elig t then
      match oldest with
      | none => best_match_loop elig rest (i+1) (i : ℤ) (some t.timestamp)
      | some o =>
        if t.timestamp < o then
          best_match_loop elig rest (i+1) (i : ℤ) (some t.timestamp)
        else best_match_loop elig rest (i+1) best oldest
    else best_match_loop elig rest (i+1) best oldest

/-- `TradeRepository.find_matching_trade`: sweep expirations first, then
scan the cleaned pool for the oldest eligible counter-order.  Returns the
best index (`-1` for no match), the cleaned pool, and the EXPIRED responses
queued by the sweep. -/
def find_matching_trade (env : Env) (now : ℤ) (newT : PoolTrade)
    (pool : List PoolTrade) : ℤ × List PoolTrade × List Resp :=
  let c := cleanup_trade_pool now pool
  (best_match_loop (eligF env newT) c.1 0 (-1) none, c.1, c.2)

/-- Leftmost-minimum-timestamp candidate of a list of pool entries:
`some (j, ts)` is the relative index and timestamp of the first eligible
entry attaining the minimal timestamp, `none` when no entry is eligible. -/
def cand (elig : PoolTrade → Bool) : List PoolTrade → Option (Nat × ℤ)
  | [] => none
  | t :: rest =>
    match cand elig rest with
    | none => if elig t then some (0, t.timestamp) else none
    | some (j, ts) =>
      if elig t ∧ t.timestamp ≤ ts then some (0, t.timestamp)
      else some (j+1, ts)

/-! ## TradeManager (`services/trade_manager.py`) -/

/-- `TradeRepository.remove_from_pool`: remove the first pool entry equal
(field-wise, as pydantic `==`) to the given trade; no-op when absent. -/
def remove_from_pool (pool : List PoolTrade) (t : PoolTrade) : List PoolTrade :=
  match pool with
  | [] => []
  | x :: rest => if x = t then rest else x :: remove_from_pool rest t

/-- An inbound `trade_request` envelope, with the fields `handle_trade_request`
and `TradeFactory.create_trade` read from the JSON payload. -/
structure TradeRequest where
  trade_id : String
  user_id : String := ""
  symbol : String := ""
  account_name : String := ""
  trade_type : String := ""
  order_type : String := ""
  account_type : String := ""
  leverage : ℤ := 0
  volume : ℚ := 0
  entry_price : ℚ := 0
  stop_loss : ℚ := 0
  take_profit : ℚ := 0
  timestamp : ℤ := 0
  expiration : ℤ := 0
  trade_code : ℤ := 0
deriving Repr, DecidableEq, Inhabited

/-- The keyword arguments `TradeFactory.create_trade` passes to the
`PoolTrade` pydantic constructor (factories/trade_factory.py lines 14–31),
as an optional-field record over the model's *required* fields
(models/trade.py lines 8–24): `none` marks a required field the factory
does not pass.  The factory passes every required field except
`trade_code` (the optional fields `comment`, `slippage`, `magic`,
`ticket`, `created_at`, `profit` and `status` have pydantic defaults and
are omitted here). -/
structure PoolTradeKwargs where
  trade_id : Option String := none
  user_id : Option String := none
  symbol : Option String := none
  trade_code : Option ℤ := none
  trade_type : Option String := none
  order_type : Option String := none
  account_type : Option String := none
  account_name : Option String := none
  leverage : Option ℤ := none
  volume : Option ℚ := none
  entry_price : Option ℚ := none
  stop_loss : Option ℚ := none
  take_profit : Option ℚ := none
  timestamp : Option ℤ := none
  expiration : Option ℤ := none
deriving Repr, DecidableEq, Inhabited

/-- Pydantic validation of a `PoolTrade` construction: succeeds exactly
when every required field was passed, and raises `ValidationError`
(modelled `none`) otherwise. -/
def validate_pool_trade (k : PoolTradeKwargs) : Option PoolTrade :=
  match k.trade_id, k.user_id, k.symbol, k.trade_code, k.trade_type,
      k.order_type, k.account_type, k.account_name, k.leverage, k.volume,
      k.entry_price, k.stop_loss, k.take_profit, k.timestamp,
      k.expiration with
  | some a, some b, some c, some d, some e, some f, some g, some h, some i,
      some j, some l, some m, some n, some o, some p =>
    some { trade_id := a, user_id := b, symbol := c, trade_code := d,
           trade_type := e, order_type := f, account_type := g,
           account_name := h, leverage := i, volume := j, entry_price := l,
           stop_loss := m, take_profit := n, timestamp := o,
           expiration := p }
  | _, _, _, _, _, _, _, _, _, _, _, _, _, _, _ => none

/-- The argument record `TradeFactory.create_trade` builds from the
request: every required `PoolTrade` field except `trade_code`, which is
not among the constructor keyword arguments (the `timestamp` fallback to
the quote clock and `created_at := datetime.now()` are folded into the
request record). -/
def create_trade_kwargs (j : TradeRequest) : PoolTradeKwargs :=
  { trade_id := some j.trade_id, user_id := some j.user_id,
    symbol := some j.symbol, account_name := some j.account_name,
    trade_type := some j.trade_type, order_type := some j.order_type,
    account_type := some j.account_type, leverage := some j.leverage,
    volume := some j.volume, entry_price := some j.entry_price,
    stop_loss := some j.stop_loss, take_profit := some j.take_profit,
    timestamp := some j.timestamp, expiration := some j.expiration }

/-- `TradeFactory.create_trade` (factories/trade_factory.py lines 13–31):
the constructor call omits the required `PoolTrade` field `trade_code`
(models/trade.py line 11), so every call raises
`pydantic.ValidationError` — modelled as the `none` the validation
returns. -/
def create_trade (j : TradeRequest) : Option PoolTrade :=
  validate_pool_trade (create_trade_kwargs j)

/-- The wire `trade_response` pydantic model (models/trade.py
lines 32–40): every field is required except `type`, which defaults to
`"trade_response"`. -/
structure TradeResponse where
  type : String := "trade_response"
  trade_id : String
  trade_retcode : ℤ
  user_id : String
  status : String
  matched_trade_id : String
  matched_volume : ℚ
  timestamp : ℚ
deriving Repr, DecidableEq, Inhabited

/-- The keyword arguments `TradeFactory.create_trade_response` passes to
the `TradeResponse` constructor (factories/trade_factory.py lines 34–42),
as an optional-field record: `none` marks a required field the factory
does not pass. -/
structure TradeResponseKwargs where
  type : Option String := some "trade_response"
  trade_id : Option String := none
  trade_retcode : Option ℤ := none
  user_id : Option String := none
  status : Option String := none
  matched_trade_id : Option String := none
  matched_volume : Option ℚ := none
  timestamp : Option ℚ := none
deriving Repr, DecidableEq, Inhabited

/-- Pydantic validation of a `TradeResponse` construction: succeeds
exactly when every required field was passed, and raises
`ValidationError` (modelled `none`) otherwise. -/
def validate_trade_response (k : TradeResponseKwargs) : Option TradeResponse :=
  match k.type, k.trade_id, k.trade_retcode, k.user_id, k.status,
      k.matched_trade_id, k.matched_volume, k.timestamp with
  | some ty, some tid, some rc, some uid, some st, some mid, some mv,
      some ts =>
    some { type := ty, trade_id := tid, trade_retcode := rc,
           user_id := uid, status := st, matched_trade_id := mid,
           matched_volume := mv, timestamp := ts }
  | _, _, _, _, _, _, _, _ => none

/-- `settings.SYMBOL` (config/settings.py line 6), the symbol whose quote
clock stamps every factory response. -/
def settingsSymbol : String := "EURUSD_o"

/-- `TradeFactory.create_trade_response` (factories/trade_factory.py
lines 33–42).  The signature has 6 parameters (`remaining_volume` is
accepted with default 0 and never used).  The body first dereferences the
quote for `settings.SYMBOL` for the timestamp (an uncaught
`AttributeError`, modelled `none`, when the lookup fails) and then calls
the `TradeResponse` constructor with every required field *except*
`trade_retcode`, so the construction raises `ValidationError` on every
call.  Independently, every call site in `TradeManager.send_trade_response`
(trade_manager.py lines 356–357) passes 7 positional arguments to these 6
parameters, raising `TypeError` before this body even runs. -/
def create_trade_response (env : Env) (trade_id user_id status : String)
    (matched_volume : ℚ) (matched_trade_id : String)
    (remaining_volume : ℚ) : Option TradeResponse :=
  match env.tick settingsSymbol with
  | none => none
  | some tk =>
    validate_trade_response
      { trade_id := some trade_id, user_id := some user_id,
        status := some status, matched_volume := some matched_volume,
        matched_trade_id := some matched_trade_id,
        timestamp := some (tk.time : ℚ) }

/-- ASCII model of Python `str.upper` on one character. -/
def upperChar (c : Char) : Char :=
  if 97 ≤ c.toNat ∧ c.toNat ≤ 122 then Char.ofNat (c.toNat - 32) else c

/-- ASCII model of Python `str.lower` on one character. -/
def lowerChar (c : Char) : Char :=
  if 65 ≤ c.toNat ∧ c.toNat ≤ 90 then Char.ofNat (c.toNat + 32) else c

/-- ASCII model of Python `str.upper`. -/
def pyUpper (s : String) : String := ⟨s.data.map upperChar⟩

/-- ASCII model of Python `str.lower`. -/
def pyLower (s : String) : String := ⟨s.data.map lowerChar⟩

/-- `TradeManager.validate_trade` (lines 71–89). -/
def validate_trade (now : ℤ) (t : PoolTrade) : Bool :=
  if ¬ (pyUpper t.trade_type = "BUY" ∨ pyUpper t.trade_type = "SELL") then false
  else if ¬ (pyUpper t.order_type ∈
      (["MARKET", "BUY_LIMIT", "SELL_LIMIT", "BUY_STOP", "SELL_STOP"] : List String)) then false
  else if ¬ (pyLower t.account_type = "demo" ∨ pyLower t.account_type = "real") then false
  else if t.leverage ≤ 0 ∨ t.volume ≤ 0 then false
  else if pyUpper t.order_type ≠ "MARKET" ∧ t.entry_price < 0 then false
  else if pyUpper t.order_type = "MARKET" ∧ t.entry_price > 0 then false
  else if t.stop_loss < 0 ∨ t.take_profit < 0 then false
  else if t.expiration > 0 ∧ t.expiration ≤ now then false
  else true

/-- The crossing-price computation of `execute_matched_trades`
(lines 184–196): market quote (bid when the incoming leg sells, ask
otherwise) rounded to tick size when either leg is MARKET — `none` when the
tick lookup failed; otherwise the *resting* leg's limit price for a
LIMIT-vs-LIMIT pair, and the minimum of the two entry prices for every
other resting pair, rounded to tick size. -/
def exec_match_price (r : ℚ → ℚ) (tick : Option Tick) (t1 t2 : PoolTrade) :
    Option ℚ :=
  if t1.order_type = "MARKET" ∨ t2.order_type = "MARKET" then
    tick.map (fun tk => r (if t1.trade_type = "SELL" then tk.bid else tk.ask))
  else if t1.order_type = "BUY_LIMIT" ∧ t2.order_type = "SELL_LIMIT" then
    some (r t2.entry_price)
  else if t1.order_type = "SELL_LIMIT" ∧ t2.order_type = "BUY_LIMIT" then
    some (r t2.entry_price)
  else
    some (r (min t1.entry_price t2.entry_price))

/-- The inner `validate_sl_tp` of `execute_matched_trades`: clamps a
stop-loss/take-profit closer than the minimum distance to the crossing
price inward instead of rejecting. -/
def clamp_sl_tp (r : ℚ → ℚ) (stops_level minD price : ℚ) (t : PoolTrade) :
    ℚ × ℚ :=
  let sl : ℚ := if t.stop_loss ≠ 0 then r t.stop_loss else 0
  let tp : ℚ := if t.take_profit ≠ 0 then r t.take_profit else 0
  if stops_level = 0 then (sl, tp)
  else
    let sl' := if sl ≠ 0 ∧ |price - sl| < minD then
        r (if t.trade_type = "SELL" then price + minD else price - minD)
      else sl
    let tp' := if tp ≠ 0 ∧ |price - tp| < minD then
        r (if t.trade_type = "SELL" then price - minD else price + minD)
      else tp
    (sl', tp')

/-- One venue order request assembled by `execute_matched_trades`. -/
structure OrderReq where
  symbol : String
  volume : ℚ
  buy : Bool
  price : ℚ
  sl : ℚ
  tp : ℚ
  comment : String
  magic : ℤ
deriving Repr, DecidableEq, Inhabited

/-- Result record of `execute_matched_trades`: the state when control left
the method — the incoming trade object (`trade1`), the pool (in which
`trade2` is the aliased entry at the given index), and the venue order
requests actually sent.  `crashed` records that an exception escaped; it is
`true` on every path, because each path ends in a `send_trade_response`
call and that method's first statement raises `TypeError` (7 positional
arguments into the 6-parameter `create_trade_response`). -/
structure ExecOut where
  trade1 : PoolTrade
  pool : List PoolTrade
  requests : List OrderReq
  crashed : Bool
deriving Repr, DecidableEq, Inhabited

/-- Membership in `pending_order_types`. -/
def isPending (s : String) : Prop :=
  s = "BUY_LIMIT" ∨ s = "SELL_LIMIT" ∨ s = "BUY_STOP" ∨ s = "SELL_STOP"

instance (s : String) : Decidable (isPending s) := by unfold isPending; infer_instance

/-- `TradeManager.execute_matched_trades` (trade_manager.py lines
156–353), translated path for path up to the exception that ends every
execution.  Each control path terminates in a `send_trade_response` call
— the early-failure returns at lines 161–163, 178–179, 181–182, 186–188,
222–224 and 249–250, and otherwise the unconditional response pair at
lines 302–309 — and every such call raises `TypeError` (7 positional
arguments into the 6-parameter `TradeFactory.create_trade_response`), so
the decrement / EXECUTED-marking / removal block at lines 311–353 is
unreachable.  Before the raise, `matched_volume = min` is computed
(line 157) and — on the main path — both venue order requests are
assembled and sent with it (lines 252–299).  `t1` is the incoming order;
`trade2` is the pool entry at index `i`, which the code mutates in place
(modelled by `List.set`): at the moment of the raise at most its `ticket`
(cleared by a successful `close_order` at line 247, overwritten by a
successful venue send at line 295) and `magic` (line 296) have changed —
never its `status` or `volume` — and no entry joins or leaves the pool.
The `getattr` defaults here are 0.1 for `trade_tick_size` and 1000 for
`stops_level`. -/
def execute_matched_trades (env : Env) (t1 : PoolTrade)
    (pool : List PoolTrade) (i : Nat) : ExecOut :=
  let t2 := pool.getD i default
  let mv := min t1.volume t2.volume
  match env.symbol_info t1.symbol with
  | none => { trade1 := t1, pool := pool, requests := [], crashed := true }
  | some si =>
    let ts := si.trade_tick_size.getD (1/10)
    let lvl := si.stops_level.getD 1000
    let minD := lvl * ts
    let tick := env.tick t1.symbol
    let r := round_price ts
    if ¬ env.check_margin t1.symbol mv t1.trade_type then
      { trade1 := t1, pool := pool, requests := [], crashed := true }
    else if ¬ env.check_margin t2.symbol mv t2.trade_type then
      { trade1 := t1, pool := pool, requests := [], crashed := true }
    else
      match exec_match_price r tick t1 t2 with
      | none => { trade1 := t1, pool := pool, requests := [], crashed := true }
      | some mp =>
        let sltp1 := clamp_sl_tp r lvl minD mp t1
        let sltp2 := clamp_sl_tp r lvl minD mp t2
        match env.filling_mode t1.symbol, env.filling_mode t2.symbol with
        | some _, some _ =>
          let magic1 := env.gen_magic t1.trade_id
          let magic2 := env.gen_magic t2.trade_id
          let close1 : Option PoolTrade :=
            if isPending t1.order_type ∧ t1.ticket ≠ 0 then
              if env.close_order t1.ticket then some { t1 with ticket := 0 } else none
            else some t1
          match close1 with
          | none =>
            { trade1 := t1, pool := pool, requests := [], crashed := true }
          | some t1a =>
            let close2 : Option PoolTrade :=
              if isPending t2.order_type ∧ t2.ticket ≠ 0 then
                if env.close_order t2.ticket then some { t2 with ticket := 0 } else none
              else some t2
            match close2 with
            | none =>
              { trade1 := t1a, pool := pool, requests := [], crashed := true }
            | some t2a =>
              let req1 : OrderReq :=
                { symbol := t1.symbol, volume := mv, buy := t1.trade_type = "BUY",
                  price := mp, sl := sltp1.1, tp := sltp1.2,
                  comment := "TradeMatch", magic := magic1 }
              let req2 : OrderReq :=
                { symbol := t2.symbol, volume := mv, buy := t2.trade_type = "BUY",
                  price := mp, sl := sltp2.1, tp := sltp2.2,
                  comment := "TradeMatch", magic := magic2 }
              let t1b := if env.send1.ok then
                  { t1a with ticket := env.send1.order, magic := magic1 } else t1a
              let t2b := if env.send2.ok then
                  { t2a with ticket := env.send2.order, magic := magic2 } else t2a
              { trade1 := t1b, pool := pool.set i t2b,
                requests := [req1, req2], crashed := true }
        | _, _ =>
          { trade1 := t1, pool := pool, requests := [], crashed := true }

/-- Result record of `handle_trade_request`: `result` is the returned
boolean, `none` modelling an uncaught exception; `pool` is the pool state
when control left the method. -/
structure HandleOut where
  result : Option Bool
  pool : List PoolTrade
deriving Repr, DecidableEq, Inhabited

/-- `TradeManager.handle_trade_request` (trade_manager.py lines 91–154).
Every control path raises before the pool is touched: the two early
validation failures (unknown symbol, line 94; volume out of bounds,
line 100) call `send_trade_response`, whose first statement passes 7
positional arguments to the 6-parameter `TradeFactory.create_trade_response`
(`TypeError`); and the main path calls `create_trade` at line 105, which
raises `ValidationError` (required `trade_code` never passed).  The dead
`some`-arm of the `create_trade` match also crashes: were a trade ever
constructed, the next statements are the line-107 response call (the same
`TypeError`) or the line-110 `get_user_balance` call, which passes 4
arguments to a 3-parameter method (`TypeError`) — all before any pool
access.  The method therefore always terminates in an exception with the
pool unchanged; the pool-side code at lines 137–154 (including the
re-append after a match) is unreachable. -/
def handle_trade_request (env : Env) (j : TradeRequest)
    (pool : List PoolTrade) : HandleOut :=
  match env.symbol_info j.symbol with
  | none => { result := none, pool := pool }
  | some si =>
    if j.volume < si.volume_min ∨ j.volume > si.volume_max then
      { result := none, pool := pool }
    else
      match create_trade j with
      | none => { result := none, pool := pool }
      | some _ => { result := none, pool := pool }

/-- An inbound `modify_trade_request` envelope. -/
structure ModifyRequest where
  trade_id : String := ""
  trade_code : ℤ := 0
  user_id : String := ""
  account_type : String := ""
  entry_price : ℚ := 0
  volume : ℚ := 0
deriving Repr, DecidableEq, Inhabited

/-- The match condition of the loop in `handle_modify_trade_request`. -/
def modify_match (req : ModifyRequest) (t : PoolTrade) : Bool :=
  t.trade_id = req.trade_id && t.user_id = req.user_id &&
    t.account_type = req.account_type

/-- Result record of `handle_modify_trade_request`. -/
structure ModifyOut where
  pool : List PoolTrade
  responses : List Resp
  saved : List PoolTrade
  crashed : Bool := false
deriving Repr, DecidableEq, Inhabited

/-- The `for trade in pool` loop of `TradeManager.handle_modify_trade_request`
(lines 616–632): the first entry matching on trade id, user id and account
type is processed and the loop returns; reaching the end of the pool emits
the not-found failure.  A positive `entry_price` in the request is written
before the volume-bounds check, so the FAILED-19 path can leave the price
already mutated; a `symbol_info` lookup failure there is an uncaught
`AttributeError` (flagged `crashed`). -/
def handle_modify_loop (env : Env) (req : ModifyRequest) :
    List PoolTrade → ModifyOut
  | [] =>
    { pool := [],
      responses := [mkResp req.trade_id req.trade_code req.user_id "FAILED 20"
        "" (some "Trade not found") 0 0],
      saved := [] }
  | t :: rest =>
    if modify_match req t then
      if t.order_type = "MARKET" then
        { pool := t :: rest,
          responses := [mkResp req.trade_id req.trade_code req.user_id
            "FAILED 18" "" (some "Cannot modify MARKET orders") 0 0],
          saved := [] }
      else
        let t1 := if req.entry_price > 0 then { t with entry_price := req.entry_price } else t
        if req.volume > 0 then
          match env.symbol_info t.symbol with
          | none => { pool := t1 :: rest, responses := [], saved := [], crashed := true }
          | some si =>
            if req.volume < si.volume_min ∨ req.volume > si.volume_max then
              { pool := t1 :: rest,
                responses := [mkResp req.trade_id req.trade_code req.user_id
                  "FAILED 19" "" (some "Invalid volume") 0 0],
                saved := [] }
            else
              let t2 := { t1 with volume := req.volume }
              { pool := t2 :: rest,
                responses := [mkResp req.trade_id req.trade_code req.user_id
                  "MODIFIED" "" none 0 0],
                saved := [t2] }
        else
          { pool := t1 :: rest,
            responses := [mkResp req.trade_id req.trade_code req.user_id
              "MODIFIED" "" none 0 0],
            saved := [t1] }
    else
      let out := handle_modify_loop env req rest
      { pool := t :: out.pool, responses := out.responses,
        saved := out.saved, crashed := out.crashed }

/-- `TradeManager.handle_modify_trade_request`. -/
def handle_modify_trade_request (env : Env) (req : ModifyRequest)
    (pool : List PoolTrade) : ModifyOut :=
  handle_modify_loop env req pool

/-- Result record of `process_tick`: the pool after the loop, the trades
for which the MARKET strategy was invoked (triggered stop orders), the
responses queued, and the trades removed from Redis. -/
structure TickOut where
  pool : List PoolTrade
  invoked : List PoolTrade
  responses : List Resp
  removedRedis : List PoolTrade
deriving Repr, DecidableEq, Inhabited

/-- The `for trade in pool` loop of `TradeManager.process_tick`
(lines 636–659), index-stepped because the expiration branch removes the
current element from the list being iterated (so the Python iterator skips
the element that shifts into its place).  Entries with empty `trade_id` or
zero `ticket` are skipped entirely; for resident stop orders the bid quote
is fetched (`none` models the uncaught `AttributeError` when the tick
lookup fails) and the MARKET strategy is invoked when the trigger condition
holds; afterwards a lapsed expiration clears the trade id, queues an
EXPIRED response (with the already-cleared id) and removes the entry.
This comment describes `process_tick_loop` below; the next definition is
the stop-trigger half of one loop body for a live, venue-resident entry:
the invoked trades, queued responses and Redis removals it produces
(`none` models the uncaught exception when the tick lookup fails for a
stop order). -/
def tick_step_stop (env : Env) (t : PoolTrade) :
    Option (List PoolTrade × List Resp × List PoolTrade) :=
  if t.order_type = "BUY_STOP" ∨ t.order_type = "SELL_STOP" then
    match env.tick t.symbol with
    | none => none
    | some tk =>
      if (t.order_type = "BUY_STOP" ∧ tk.bid ≥ t.entry_price) ∨
          (t.order_type = "SELL_STOP" ∧ tk.bid ≤ t.entry_price) then
        if env.market_exec t then
          some ([t], [mkResp t.trade_id t.trade_code t.user_id
            "EXECUTED" "" none 0 0], [t])
        else some ([t], [], [])
      else some ([], [], [])
  else some ([], [], [])

def process_tick_loop (env : Env) : Nat → List PoolTrade → Nat → Option TickOut
  | 0, pool, _ => some { pool := pool, invoked := [], responses := [], removedRedis := [] }
  | Nat.succ fuel, pool, i =>
    if h : i < pool.length then
      let t := pool[i]
      if t.trade_id = "" ∨ t.ticket = 0 then
        process_tick_loop env fuel pool (i+1)
      else
        match tick_step_stop env t with
        | none => none
        | some inv =>
          if t.expiration > 0 ∧ t.expiration ≤ env.now then
            let t' := { t with trade_id := "" }
            let pool' := remove_from_pool (pool.set i t') t'
            match process_tick_loop env fuel pool' (i+1) with
            | none => none
            | some out =>
              some { pool := out.pool
                     invoked := inv.1 ++ out.invoked
                     responses := inv.2.1 ++
                       [mkResp "" t.trade_code t.user_id "EXPIRED" "" none 0 0] ++
                       out.responses
                     removedRedis := inv.2.2 ++ [t'] ++ out.removedRedis }
          else
            match process_tick_loop env fuel pool (i+1) with
            | none => none
            | some out =>
              some { pool := out.pool
                     invoked := inv.1 ++ out.invoked
                     responses := inv.2.1 ++ out.responses
                     removedRedis := inv.2.2 ++ out.removedRedis }
    else some { pool := pool, invoked := [], responses := [], removedRedis := [] }

/-- `TradeManager.process_tick`: run the loop from index 0.  The fuel
`pool.length` suffices because the index increases at every step and the
pool never grows during the loop. -/
def process_tick (env : Env) (pool : List PoolTrade) : Option TickOut :=
  process_tick_loop env pool.length pool 0

/-- The unconditional pool-state semantics of the `process_tick` loop
(trade_manager.py lines 636–659), including the exception that ends the
loop on the first live, venue-resident entry with a lapsed expiration: the
expiration branch first clears the entry's `trade_id` in place (line 653)
and then calls `create_trade_response` (line 654), which raises
`ValidationError` (required `trade_retcode` never passed by the factory)
*before* `remove_from_pool` runs — leaving the cleared-id entry in the
pool, its `status` and `volume` untouched.  For a live resident stop order
the bid fetch at lines 640–641 raises `AttributeError` when the tick
lookup fails (loop dies, pool unchanged); when a quote is available, a
triggered stop invokes the MARKET strategy, whose `execute_market_trade`
call reads the nonexistent attribute `trade.magic_number`
(mt5_client.py line 141), catches its own exception and returns `False`
(lines 154–156), so the trigger branch changes no state.  Returns the pool
at loop exit together with whether an exception escaped.
(`process_tick_loop` above models the loop's response/removal bookkeeping
and is used by theorems whose hypotheses keep the expiration branch
unexercised; this definition is the state-level account needed where no
such hypothesis is available.) -/
def process_tick_state_loop (env : Env) :
    Nat → List PoolTrade → Nat → List PoolTrade × Bool
  | 0, pool, _ => (pool, false)
  | Nat.succ fuel, pool, i =>
    if h : i < pool.length then
      let t := pool[i]
      if t.trade_id = "" ∨ t.ticket = 0 then
        process_tick_state_loop env fuel pool (i+1)
      else
        if t.order_type = "BUY_STOP" ∨ t.order_type = "SELL_STOP" then
          match env.tick t.symbol with
          | none => (pool, true)
          | some _ =>
            if t.expiration > 0 ∧ t.expiration ≤ env.now then
              (pool.set i { t with trade_id := "" }, true)
            else
              process_tick_state_loop env fuel pool (i+1)
        else
          if t.expiration > 0 ∧ t.expiration ≤ env.now then
            (pool.set i { t with trade_id := "" }, true)
          else
            process_tick_state_loop env fuel pool (i+1)
    else (pool, false)

/-- `TradeManager.process_tick`, state-level: run the loop from index 0. -/
def process_tick_state (env : Env) (pool : List PoolTrade) :
    List PoolTrade × Bool :=
  process_tick_state_loop env pool.length pool 0

/-- The source-level trigger-and-invoke condition of `process_tick` for one
pool entry: live (`trade_id ≠ ""`), venue-resident (`ticket ≠ 0`), a stop
order, and the bid quote beyond the entry price on the stop's side. -/
def tick_trigger (env : Env) (t : PoolTrade) : Bool :=
  match env.tick t.symbol with
  | none => false
  | some tk =>
    decide (t.trade_id ≠ "") && decide (t.ticket ≠ 0) &&
      (decide (t.order_type = "BUY_STOP" ∧ tk.bid ≥ t.entry_price) ||
       decide (t.order_type = "SELL_STOP" ∧ tk.bid ≤ t.entry_price))

/-- The spec-side pool invariant: every held entry is PENDING with positive
volume. -/
def pool_invariant (pool : List PoolTrade) : Bool :=
  pool.all (fun t => t.status = "PENDING" && decide (0 < t.volume))

/-! ## Concrete fixtures used by the closed theorems and witnesses -/

/-- A benign symbol-info record: tick size 1, no stops-level constraint. -/
def siW : SymbolInfo :=
  { trade_tick_size := some 1, stops_level := some 0, digits := some 2,
    volume_min := 1, volume_max := 100, trade_contract_size := 1,
    filling_mode := 1 }

/-- A fully-cooperative venue environment: quotes at 10, margins pass,
all three order sends succeed. -/
def envW : Env :=
  { symbol_info := fun _ => some siW, tick := fun _ => some { bid := 10, ask := 10, time := 0 },
    check_margin := fun _ _ _ => true, filling_mode := fun _ => some 1,
    close_order := fun _ => true, gen_magic := fun _ => 7,
    send1 := { ok := true, order := 111 }, send2 := { ok := true, order := 222 },
    send_rem := { ok := true, order := 333 },
    user_balance := fun _ _ => 10000, market_exec := fun _ => true, now := 1000 }

/-- A resting SELL_LIMIT order of volume 3 at price 8, sitting in the pool. -/
def tradeB : PoolTrade :=
  { trade_id := "B", user_id := "u2", symbol := "EURUSD", trade_code := 0,
    trade_type := "SELL", order_type := "SELL_LIMIT", account_type := "demo",
    account_name := "a", leverage := 100, volume := 3, entry_price := 8,
    stop_loss := 0, take_profit := 0, timestamp := 1, expiration := 0 }

/-- An incoming BUY_LIMIT request of volume 3 at price 10 that crosses
`tradeB` completely. -/
def reqA : TradeRequest :=
  { trade_id := "A", user_id := "u1", symbol := "EURUSD",
    account_name := "a", trade_type := "BUY", order_type := "BUY_LIMIT",
    account_type := "demo", leverage := 100, volume := 3, entry_price := 10,
    timestamp := 2 }

example : (create_trade_kwargs reqA).trade_code = none := by decide
example : create_trade reqA = none := by decide
example : pool_invariant [tradeB] = true := by decide
example : (handle_trade_request envW reqA [tradeB]).pool = [tradeB] := by decide

/-- A resting BUY_LIMIT order of volume 5 at price 10. -/
def tradeA : PoolTrade :=
  { trade_id := "A", user_id := "u1", symbol := "EURUSD", trade_code := 0,
    trade_type := "BUY", order_type := "BUY_LIMIT", account_type := "demo",
    account_name := "a", leverage := 100, volume := 5, entry_price := 10,
    stop_loss := 0, take_profit := 0, timestamp := 2, expiration := 0 }

example : validate_trade 1000 tradeA = true := by decide
example : can_match_trades envW tradeA tradeB = true := by decide
example : (find_matching_trade envW 1000 tradeA [tradeB]).1 = 0 := by decide

/-- A resting BUY_STOP order with stop price 100. -/
def tStop : PoolTrade :=
  { trade_id := "S", user_id := "u1", symbol := "EURUSD", trade_code := 0,
    trade_type := "BUY", order_type := "BUY_STOP", account_type := "demo",
    account_name := "a", leverage := 100, volume := 1, entry_price := 100,
    stop_loss := 0, take_profit := 0, timestamp := 3, expiration := 0 }

/-- An opposite-side MARKET order on the same symbol and account type. -/
def tMkt : PoolTrade :=
  { trade_id := "M", user_id := "u2", symbol := "EURUSD", trade_code := 0,
    trade_type := "SELL", order_type := "MARKET", account_type := "demo",
    account_name := "a", leverage := 100, volume := 1, entry_price := 0,
    stop_loss := 0, take_profit := 0, timestamp := 4, expiration := 0 }

/-- Environment whose bid quote is 50, far below `tStop`'s stop price. -/
def envQ50 : Env :=
  { symbol_info := fun _ => some siW,
    tick := fun _ => some { bid := 50, ask := 50, time := 0 } }

/-- Environment whose quote lookup fails. -/
def envQnone : Env :=
  { symbol_info := fun _ => some siW, tick := fun _ => none }

/-- Environment with no known symbols at all. -/
def envNoSym : Env := {}

/-- A live pool entry whose expiration has lapsed at time 10. -/
def tExp : PoolTrade :=
  { trade_id := "E", user_id := "u3", symbol := "EURUSD", trade_code := 0,
    trade_type := "BUY", order_type := "BUY_LIMIT", account_type := "demo",
    account_name := "a", leverage := 1, volume := 1, entry_price := 1,
    stop_loss := 0, take_profit := 0, timestamp := 0, expiration := 5 }

/-- A pool entry with `expiration = 0` (never expires). -/
def tZero : PoolTrade := { tExp with trade_id := "Z", expiration := 0 }

/-- A pool entry with empty `trade_id` but lapsed expiration. -/
def tEmptyId : PoolTrade := { tExp with trade_id := "" }

/-- The modify request used by the C10 witness. -/
def reqM : ModifyRequest :=
  { trade_id := "B", user_id := "u2", account_type := "demo",
    entry_price := 9, volume := 2 }

/-- Environment whose bid quote is 150, above `tStop`'s stop price. -/
def envQ150 : Env :=
  { symbol_info := fun _ => some siW,
    tick := fun _ => some { bid := 150, ask := 150, time := 0 },
    market_exec := fun _ => true }

/-- `tStop` as a venue-resident order (non-zero ticket). -/
def tStopT : PoolTrade := { tStop with ticket := 9 }

/-- How the scan loop combines its accumulator (`best`, `oldest`) with the
leftmost-minimum candidate of the remaining list. -/
def cand_merge (i : Nat) (best : ℤ) (oldest : Option ℤ) :
    Option (Nat × ℤ) → ℤ
  | none => best
  | some (j, ts) =>
    match oldest with
    | none => (i : ℤ) + (j : ℤ)
    | some o => if ts < o then (i : ℤ) + (j : ℤ) else best

example : pythonRound (1/2) = 0 := by decide
example : pythonRound (3/2) = 2 := by decide
example : pythonRound (5/2) = 2 := by decide
example : pythonRound (-1/2) = 0 := by decide
example : pythonRound (7/10) = 1 := by decide
example : round_price 1 (19/2) = 10 := by decide

/-! ## Claim C1 — pool invariant -/

theorem pool_invariant_mem (pool : List PoolTrade)
    (hinv : pool_invariant pool = true) (t : PoolTrade) (ht : t ∈ pool) :
    t.status = "PENDING" ∧ 0 < t.volume := by
  unfold pool_invariant at hinv
  rw [List.all_eq_true] at hinv
  simpa using hinv t ht

theorem pool_invariant_of_mem (pool : List PoolTrade)
    (h : ∀ t ∈ pool, t.status = "PENDING" ∧ 0 < t.volume) :
    pool_invariant pool = true := by
  unfold pool_invariant
  rw [List.all_eq_true]
  intro t ht
  simpa using h t ht

/-- Overwriting one entry with a value of equal `status` and `volume`
preserves the pool invariant. -/
theorem pool_invariant_set (pool : List PoolTrade) (i : Nat) (x : PoolTrade)
    (hinv : pool_invariant pool = true)
    (hs : x.status = (pool.getD i default).status)
    (hv : x.volume = (pool.getD i default).volume) :
    pool_invariant (pool.set i x) = true := by
  by_cases h : i < pool.length
  · apply pool_invariant_of_mem
    intro t ht
    rcases List.mem_or_eq_of_mem_set ht with hmem | rfl
    · exact pool_invariant_mem pool hinv t hmem
    · rw [List.getD_eq_getElem pool default h] at hs hv
      rw [hs, hv]
      exact pool_invariant_mem pool hinv _ (List.getElem_mem h)
  · rw [List.set_eq_of_length_le (Nat.le_of_not_lt h)]
    exact hinv

theorem pool_invariant_cons (t : PoolTrade) (rest : List PoolTrade)
    (h1 : t.status = "PENDING") (h2 : 0 < t.volume)
    (h : pool_invariant rest = true) :
    pool_invariant (t :: rest) = true := by
  unfold pool_invariant at *
  simp [List.all_cons, h1, h2, h]

theorem pool_invariant_rest (t : PoolTrade) (rest : List PoolTrade)
    (h : pool_invariant (t :: rest) = true) :
    pool_invariant rest = true := by
  unfold pool_invariant at *
  rw [List.all_cons, Bool.and_eq_true] at h
  exact h.2

/-- `handle_trade_request` leaves the pool untouched on every path (it
always raises first). -/
theorem handle_pool_frame (env : Env) (j : TradeRequest)
    (pool : List PoolTrade) : (handle_trade_request env j pool).pool = pool := by
  unfold handle_trade_request
  cases env.symbol_info j.symbol with
  | none => rfl
  | some si =>
    dsimp only
    split_ifs
    · rfl
    · cases create_trade j <;> rfl

/-- The close-pending step of `execute_matched_trades` changes neither
`status` nor `volume` of the trade it clears. -/
theorem close_keeps_fields (t u : PoolTrade) (c : Bool)
    (h : (if isPending t.order_type ∧ t.ticket ≠ 0 then
            (if c then some { t with ticket := 0 } else none)
          else some t) = some u) :
    u.status = t.status ∧ u.volume = t.volume := by
  split_ifs at h
  all_goals first
    | (injection h with h3; rw [← h3]; exact ⟨rfl, rfl⟩)
    | (injection h)

/-- `execute_matched_trades` preserves the pool invariant on every path:
before its terminal raise it changes at most `ticket`/`magic` fields of
the matched entry, never `status` or `volume`, and never the pool's
membership. -/
theorem exec_pool_invariant (env : Env) (t1 : PoolTrade)
    (pool : List PoolTrade) (i : Nat)
    (hinv : pool_invariant pool = true) :
    pool_invariant (execute_matched_trades env t1 pool i).pool = true := by
  unfold execute_matched_trades
  dsimp only
  repeat' (first | dsimp only | split)
  all_goals first
    | exact hinv
    | (apply pool_invariant_set pool i _ hinv <;> rfl)
    | (rename_i t2a heq hs
       have hf := close_keeps_fields (pool.getD i default) t2a
         (env.close_order (pool.getD i default).ticket) heq
       apply pool_invariant_set pool i _ hinv
       · exact hf.1
       · exact hf.2)

/-- `cleanup_trade_pool` preserves the pool invariant: it only removes
entries. -/
theorem cleanup_pool_invariant (now : ℤ) (pool : List PoolTrade)
    (h : pool_invariant pool = true) :
    pool_invariant (cleanup_trade_pool now pool).1 = true := by
  apply pool_invariant_of_mem
  intro t ht
  exact pool_invariant_mem pool h t (List.mem_of_mem_filter ht)

/-- The `process_tick` loop preserves the pool invariant: each step either
recurses on the unchanged pool, dies with the pool unchanged, or clears
one entry's `trade_id` (keeping its `status` and `volume`) and dies. -/
theorem tick_state_loop_invariant (env : Env) :
    ∀ fuel pool i, pool_invariant pool = true →
      pool_invariant (process_tick_state_loop env fuel pool i).1 = true := by
  intro fuel
  induction fuel with
  | zero => intro pool i h; exact h
  | succ fuel ih =>
    intro pool i h
    unfold process_tick_state_loop
    by_cases hl : i < pool.length
    · rw [dif_pos hl]
      dsimp only
      by_cases h1 : pool[i].trade_id = "" ∨ pool[i].ticket = 0
      · rw [if_pos h1]
        exact ih pool (i+1) h
      · rw [if_neg h1]
        by_cases h2 : pool[i].order_type = "BUY_STOP" ∨
            pool[i].order_type = "SELL_STOP"
        · rw [if_pos h2]
          cases env.tick (pool[i]).symbol with
          | none => exact h
          | some tk =>
            dsimp only
            by_cases h3 : pool[i].expiration > 0 ∧ pool[i].expiration ≤ env.now
            · rw [if_pos h3]
              apply pool_invariant_set pool i _ h
              · rw [List.getD_eq_getElem pool default hl]
              · rw [List.getD_eq_getElem pool default hl]
            · rw [if_neg h3]
              exact ih pool (i+1) h
        · rw [if_neg h2]
          by_cases h3 : pool[i].expiration > 0 ∧ pool[i].expiration ≤ env.now
          · rw [if_pos h3]
            apply pool_invariant_set pool i _ h
            · rw [List.getD_eq_getElem pool default hl]
            · rw [List.getD_eq_getElem pool default hl]
          · rw [if_neg h3]
            exact ih pool (i+1) h
    · rw [dif_neg hl]
      exact h

/-- `handle_modify_trade_request` preserves the pool invariant: it
rewrites at most `entry_price` and — only after the `new_volume > 0` and
bounds checks pass — sets `volume` to the validated positive request
volume, leaving `status` untouched. -/
theorem modify_loop_invariant (env : Env) (req : ModifyRequest) :
    ∀ pool, pool_invariant pool = true →
      pool_invariant (handle_modify_loop env req pool).pool = true := by
  intro pool
  induction pool with
  | nil => intro _; rfl
  | cons t rest ih =>
    intro h
    have hh := pool_invariant_mem _ h t (List.mem_cons_self t rest)
    have hr := pool_invariant_rest t rest h
    unfold handle_modify_loop
    by_cases hm : modify_match req t
    · rw [if_pos hm]
      by_cases hmk : t.order_type = "MARKET"
      · rw [if_pos hmk]
        exact h
      · rw [if_neg hmk]
        dsimp only
        by_cases hv : req.volume > 0
        · rw [if_pos hv]
          cases env.symbol_info t.symbol with
          | none =>
            apply pool_invariant_cons _ _ ?_ ?_ hr
            · split_ifs <;> exact hh.1
            · split_ifs <;> exact hh.2
          | some si =>
            dsimp only
            by_cases hb : req.volume < si.volume_min ∨ req.volume > si.volume_max
            · rw [if_pos hb]
              apply pool_invariant_cons _ _ ?_ ?_ hr
              · split_ifs <;> exact hh.1
              · split_ifs <;> exact hh.2
            · rw [if_neg hb]
              apply pool_invariant_cons _ _ ?_ ?_ hr
              · split_ifs <;> exact hh.1
              · exact hv
        · rw [if_neg hv]
          apply pool_invariant_cons _ _ ?_ ?_ hr
          · split_ifs <;> exact hh.1
          · split_ifs <;> exact hh.2
    · rw [if_neg hm]
      dsimp only
      exact pool_invariant_cons _ _ hh.1 hh.2 (ih hr)

/-- C1: the pool invariant holds — every pool entry stays PENDING with
positive volume in every reachable state.  The initial pool is empty
(`load_trades_from_redis` hits the `create_trade` `ValidationError` inside
its caught try-block before any `add_to_pool`), and each of the five named
operations preserves the invariant from any invariant-satisfying pool:
`handle_trade_request` always raises before touching the pool;
`execute_matched_trades` raises at its terminal `send_trade_response`
having changed at most the matched entry's `ticket` and `magic`;
`cleanup_trade_pool` only removes entries; `process_tick` at most clears
one entry's `trade_id` before its expiration-branch raise; and
`handle_modify_trade_request` rewrites only `entry_price` and a validated
positive `volume`.  In particular no pooled entry's status ever becomes
EXECUTED — the marking-and-removal code at lines 311–353 is unreachable,
and so is the re-append at lines 140–142. -/
theorem C1_pool_invariant_preserved (env : Env) (j : TradeRequest)
    (t1 : PoolTrade) (i : Nat) (now : ℤ) (req : ModifyRequest)
    (pool : List PoolTrade) (hinv : pool_invariant pool = true) :
    pool_invariant ([] : List PoolTrade) = true ∧
    pool_invariant (handle_trade_request env j pool).pool = true ∧
    pool_invariant (execute_matched_trades env t1 pool i).pool = true ∧
    pool_invariant (cleanup_trade_pool now pool).1 = true ∧
    pool_invariant (process_tick_state env pool).1 = true ∧
    pool_invariant (handle_modify_trade_request env req pool).pool = true := by
  refine ⟨by decide, ?_, exec_pool_invariant env t1 pool i hinv,
    cleanup_pool_invariant now pool hinv,
    tick_state_loop_invariant env pool.length pool 0 hinv,
    modify_loop_invariant env req pool hinv⟩
  rw [handle_pool_frame env j pool]
  exact hinv

/-- Witness for C1 at the concrete fixtures. -/
theorem C1_pool_invariant_preserved_witness :
    pool_invariant (execute_matched_trades envW tradeA [tradeB] 0).pool = true ∧
    pool_invariant (handle_modify_trade_request envW reqM [tradeB]).pool = true := by
  have h := C1_pool_invariant_preserved envW reqA tradeA 0 1000 reqM [tradeB]
    (by decide)
  exact ⟨h.2.2.1, h.2.2.2.2.2⟩

/-! ## Claim C2 — STOP vs MARKET matching -/

/-- C2 counterexample: a BUY_STOP with stop price 100 against an
opposite-side MARKET order still matches when the rounded bid quote is 50
(claim requires quote ≥ stop price), and still matches when the quote
lookup fails (claim requires no match): the unconditional MARKET branch of
`can_match_trades` precedes the quote check. -/
theorem C2_counterexample :
    can_match_trades envQ50 tStop tMkt = true ∧
    ¬ (round_price 1 50 ≥ round_price 1 tStop.entry_price) ∧
    can_match_trades envQnone tStop tMkt = true := by
  decide

/-- C2 amended: whenever either leg is MARKET and the preconditions pass
(opposite `trade_type`, same symbol and account type, symbol info
available, both stop-loss/take-profit distance checks passing),
`can_match_trades` returns true unconditionally — no quote is consulted,
and the quote-based STOP-vs-MARKET branch of the source is unreachable. -/
theorem C2_market_branch_shortcircuits (env : Env) (t1 t2 : PoolTrade)
    (si : SymbolInfo)
    (hpre : ¬ (t1.trade_type = t2.trade_type ∨ t1.symbol ≠ t2.symbol ∨
      t1.account_type ≠ t2.account_type))
    (hsi : env.symbol_info t1.symbol = some si)
    (hv1 : validate_sl_tp_match (si.trade_tick_size.getD (1/100))
      (si.stops_level.getD 0) t1 = true)
    (hv2 : validate_sl_tp_match (si.trade_tick_size.getD (1/100))
      (si.stops_level.getD 0) t2 = true)
    (hmkt : t1.order_type = "MARKET" ∨ t2.order_type = "MARKET") :
    can_match_trades env t1 t2 = true := by
  unfold can_match_trades
  rw [hsi]
  simp [hpre, hmkt]
  exact ⟨by simpa using hv1, by simpa using hv2⟩

/-- Witness for the C2 amended theorem at the concrete fixtures. -/
theorem C2_market_branch_shortcircuits_witness :
    can_match_trades envQ50 tStop tMkt = true :=
  C2_market_branch_shortcircuits envQ50 tStop tMkt siW (by decide) rfl
    (by decide) (by decide) (by decide)

/-! ## Claim C5 — crossing price -/

/-- C5 counterexample: crossing the BUY_LIMIT at 10 against the SELL_LIMIT
at 8 (tick size 1, quote 9) uses price 8 — the resting leg's limit price —
while the rounded midpoint of the two limit prices is 9. -/
theorem C5_counterexample :
    exec_match_price (round_price 1) (some { bid := 9, ask := 9, time := 0 })
      tradeA tradeB = some 8 ∧
    round_price 1 ((tradeA.entry_price + tradeB.entry_price) / 2) = 9 := by
  decide

/-- C5 amended: when neither leg is MARKET the crossing price is the
resting leg's limit price (`trade2.entry_price`) for a LIMIT-vs-LIMIT pair
and the minimum of the two entry prices for every other resting pair,
rounded to tick size — not the midpoint; when either leg is MARKET it is
the current quote (bid when the incoming leg sells, ask otherwise) rounded
to tick size, and no price is produced when the quote lookup fails. -/
theorem C5_crossing_price (r : ℚ → ℚ) (tick : Option Tick)
    (t1 t2 : PoolTrade) :
    (¬ (t1.order_type = "MARKET" ∨ t2.order_type = "MARKET") →
      exec_match_price r tick t1 t2 = some (
        if (t1.order_type = "BUY_LIMIT" ∧ t2.order_type = "SELL_LIMIT") ∨
           (t1.order_type = "SELL_LIMIT" ∧ t2.order_type = "BUY_LIMIT")
        then r t2.entry_price
        else r (min t1.entry_price t2.entry_price)))
    ∧ ((t1.order_type = "MARKET" ∨ t2.order_type = "MARKET") →
      exec_match_price r tick t1 t2 =
        tick.map (fun tk => r (if t1.trade_type = "SELL" then tk.bid else tk.ask))) := by
  constructor
  · intro h
    unfold exec_match_price
    rw [if_neg h]
    by_cases h1 : t1.order_type = "BUY_LIMIT" ∧ t2.order_type = "SELL_LIMIT"
    · rw [if_pos h1, if_pos (Or.inl h1)]
    · by_cases h2 : t1.order_type = "SELL_LIMIT" ∧ t2.order_type = "BUY_LIMIT"
      · rw [if_neg h1, if_pos h2, if_pos (Or.inr h2)]
      · rw [if_neg h1, if_neg h2, if_neg (by tauto)]
  · intro h
    unfold exec_match_price
    rw [if_pos h]

/-- Witness for the C5 amended theorem at the concrete fixtures. -/
theorem C5_crossing_price_witness :
    exec_match_price (round_price 1) (some { bid := 9, ask := 9, time := 0 })
      tradeA tradeB = some (round_price 1 tradeB.entry_price) := by
  have h := (C5_crossing_price (round_price 1)
    (some { bid := 9, ask := 9, time := 0 }) tradeA tradeB).1 (by decide)
  rw [h]
  decide

/-! ## Claim C7 — expiration sweep -/

/-- C7 counterexample: an entry with empty `trade_id` whose expiration has
lapsed is kept by `cleanup_trade_pool` and no EXPIRED response is queued
for it, contradicting the claim that every entry with
`expiration > 0 ∧ expiration ≤ now` is removed. -/
theorem C7_counterexample :
    tEmptyId.expiration > 0 ∧ tEmptyId.expiration ≤ 10 ∧
    tEmptyId ∈ (cleanup_trade_pool 10 [tEmptyId]).1 ∧
    (cleanup_trade_pool 10 [tEmptyId]).2 = [] := by
  decide

/-- C7 amended: the sweep removes every entry with *non-empty* `trade_id`
whose `expiration > 0` has lapsed, queueing an EXPIRED trade response for
each removed entry, and an entry with `expiration = 0` is never removed. -/
theorem C7_sweep_correct (now : ℤ) (pool : List PoolTrade) (t : PoolTrade) :
    (t ∈ pool → t.trade_id ≠ "" → 0 < t.expiration → t.expiration ≤ now →
      t ∉ (cleanup_trade_pool now pool).1 ∧
      expired_response t ∈ (cleanup_trade_pool now pool).2)
    ∧ (t ∈ pool → t.expiration = 0 → t ∈ (cleanup_trade_pool now pool).1) := by
  constructor
  · intro hmem hid hpos hle
    constructor
    · intro hin
      rw [cleanup_trade_pool] at hin
      have := (List.mem_filter.mp hin).2
      rw [keep_pred] at this
      simp only [Bool.or_eq_true, decide_eq_true_eq] at this
      rcases this with (h | h) | h
      · exact hid h
      · omega
      · omega
    · rw [cleanup_trade_pool]
      refine List.mem_map.mpr ⟨t, List.mem_filter.mpr ⟨hmem, ?_⟩, rfl⟩
      rw [expired_pred]
      simp only [Bool.and_eq_true, decide_eq_true_eq]
      exact ⟨⟨hid, hpos⟩, hle⟩
  · intro hmem hz
    rw [cleanup_trade_pool]
    refine List.mem_filter.mpr ⟨hmem, ?_⟩
    rw [keep_pred]
    simp only [Bool.or_eq_true, decide_eq_true_eq]
    omega

/-- Witness for the C7 amended theorem: the lapsed live entry is removed
with an EXPIRED response and the never-expiring entry is kept. -/
theorem C7_sweep_correct_witness :
    (tExp ∉ (cleanup_trade_pool 10 [tExp, tZero]).1 ∧
      expired_response tExp ∈ (cleanup_trade_pool 10 [tExp, tZero]).2) ∧
    tZero ∈ (cleanup_trade_pool 10 [tExp, tZero]).1 :=
  ⟨(C7_sweep_correct 10 [tExp, tZero] tExp).1 (by decide) (by decide)
      (by decide) (by decide),
   (C7_sweep_correct 10 [tExp, tZero] tZero).2 (by decide) (by decide)⟩

/-! ## Claim C9 — trade response statuses -/

/-- C9: `send_trade_response` never produces a trade response at all, with
any status.  Its first statement passes 7 positional arguments to the
6-parameter `create_trade_response` (`TypeError`), and independently the
factory body itself cannot construct a `TradeResponse` for *any* argument
vector: the model's required `trade_retcode` field is never among the
constructor keyword arguments, so pydantic validation fails on every call
(and the timestamp's quote dereference raises first when the lookup
fails).  Hence nothing is ever sent or queued — and the overwrite
`response.status = error` at lines 358–359 is dead code. -/
theorem C9_response_never_constructed (env : Env) (tid uid st : String)
    (mv : ℚ) (mid : String) (rv : ℚ) :
    create_trade_response env tid uid st mv mid rv = none := by
  unfold create_trade_response
  cases env.tick settingsSymbol with
  | none => rfl
  | some tk => rfl

/-! ## Claim C3 — queued-message redelivery -/

theorem queue_message_small (q : List String) (m : String)
    (h : q.length + 1 ≤ 1000) : queue_message q m = m :: q := by
  unfold queue_message
  rw [if_neg]
  simp only [List.length_cons]
  omega

theorem enqueue_all_small :
    ∀ (ms q : List String), q.length + ms.length ≤ 1000 →
      enqueue_all q ms = ms.reverse ++ q := by
  intro ms
  induction ms with
  | nil => intro q _; simp [enqueue_all]
  | cons m rest ih =>
    intro q h
    simp only [List.length_cons] at h
    unfold enqueue_all
    rw [List.foldl_cons, queue_message_small q m (by omega)]
    have := ih (m :: q) (by simp only [List.length_cons]; omega)
    unfold enqueue_all at this
    rw [this]
    simp

theorem drain_all_sent :
    ∀ (q : List String) (fuel : Nat), q.length ≤ fuel →
      reconnect_drain (fun _ => true) fuel q = (q, []) := by
  intro q
  induction q with
  | nil =>
    intro fuel _
    cases fuel <;> rfl
  | cons m rest ih =>
    intro fuel h
    cases fuel with
    | zero => simp at h
    | succ f =>
      have hr := ih f (by simpa using h)
      unfold reconnect_drain
      simp [hr]

/-- C3 counterexample: enqueue "m1" then "m2" while the link is down; the
reconnect drain (fuel 2, every send succeeding) delivers them as
["m2", "m1"] — the reverse of the enqueue order, because `queue_message`
pushes with `lpush` and the drain pops with `lpop` from the same end. -/
theorem C3_counterexample :
    (reconnect_drain (fun _ => true) 2 (enqueue_all [] ["m1", "m2"])).1
      = ["m2", "m1"] ∧
    (["m2", "m1"] : List String) ≠ ["m1", "m2"] := by
  decide

/-- C3 amended: with at most 1000 pending messages (so the eviction cap
never fires) and no send failures, the reconnect drain sends exactly the
enqueued messages, each exactly once, but in LIFO order — the reverse of
the order in which `queue_message` enqueued them — and leaves the queue
empty. -/
theorem C3_drain_reverse_order (ms : List String) (h : ms.length ≤ 1000) :
    reconnect_drain (fun _ => true) ms.length (enqueue_all [] ms)
      = (ms.reverse, []) := by
  have he : enqueue_all [] ms = ms.reverse ++ [] :=
    enqueue_all_small ms [] (by simpa using h)
  rw [he, List.append_nil]
  exact drain_all_sent ms.reverse ms.length (by simp)

/-- Witness for the C3 amended theorem at a concrete three-message queue. -/
theorem C3_drain_reverse_order_witness :
    reconnect_drain (fun _ => true) 3 (enqueue_all [] ["a", "b", "c"])
      = (["c", "b", "a"], []) :=
  C3_drain_reverse_order ["a", "b", "c"] (by decide)

/-! ## Claim C10 — modify frame condition -/

theorem modify_loop_head_match (env : Env) (req : ModifyRequest)
    (t : PoolTrade) (rest : List PoolTrade)
    (hm : modify_match req t = true) (hmkt : ¬ t.order_type = "MARKET") :
    ∃ t', (handle_modify_loop env req (t :: rest)).pool = t' :: rest ∧
      t' = { t with entry_price := t'.entry_price, volume := t'.volume } := by
  unfold handle_modify_loop
  rw [if_pos hm, if_neg hmkt]
  by_cases hp : req.entry_price > 0
  · by_cases hv : req.volume > 0
    · cases env.symbol_info t.symbol with
      | none => exact ⟨_, by rw [if_pos hp, if_pos hv], rfl⟩
      | some si =>
        by_cases hb : req.volume < si.volume_min ∨ req.volume > si.volume_max
        · exact ⟨_, by rw [if_pos hp, if_pos hv]; dsimp only; rw [if_pos hb], rfl⟩
        · exact ⟨_, by rw [if_pos hp, if_pos hv]; dsimp only; rw [if_neg hb], rfl⟩
    · exact ⟨_, by rw [if_pos hp, if_neg hv], rfl⟩
  · by_cases hv : req.volume > 0
    · cases env.symbol_info t.symbol with
      | none => exact ⟨_, by rw [if_neg hp, if_pos hv], rfl⟩
      | some si =>
        by_cases hb : req.volume < si.volume_min ∨ req.volume > si.volume_max
        · exact ⟨_, by rw [if_neg hp, if_pos hv]; dsimp only; rw [if_pos hb], rfl⟩
        · exact ⟨_, by rw [if_neg hp, if_pos hv]; dsimp only; rw [if_neg hb], rfl⟩
    · exact ⟨_, by rw [if_neg hp, if_neg hv], rfl⟩

/-- C10: for a modify request whose first pool match is a non-MARKET trade,
`handle_modify_trade_request` rewrites only that entry, changing at most
its `entry_price` and `volume` fields, and leaves every entry before and
after it untouched (entries before the match all fail the match test). -/
theorem C10_modify_frame (env : Env) (req : ModifyRequest) :
    ∀ (pool : List PoolTrade) (t0 : PoolTrade),
      pool.find? (modify_match req) = some t0 →
      ¬ t0.order_type = "MARKET" →
      ∃ l₁ l₂ t', pool = l₁ ++ t0 :: l₂ ∧
        (handle_modify_trade_request env req pool).pool = l₁ ++ t' :: l₂ ∧
        t' = { t0 with entry_price := t'.entry_price, volume := t'.volume } ∧
        ∀ u ∈ l₁, modify_match req u = false := by
  intro pool
  induction pool with
  | nil => intro t0 h; simp [List.find?] at h
  | cons t rest ih =>
    intro t0 hfind hmkt
    by_cases hm : modify_match req t = true
    · have ht0 : t0 = t := by
        rw [List.find?_cons_of_pos _ hm] at hfind
        exact (Option.some_inj.mp hfind).symm
      subst ht0
      obtain ⟨t', hpool, hframe⟩ := modify_loop_head_match env req t0 rest hm hmkt
      exact ⟨[], rest, t', rfl, hpool, hframe, by simp⟩
    · have hm' : modify_match req t = false := by
        simpa using hm
      rw [List.find?_cons_of_neg _ (by simp [hm'])] at hfind
      obtain ⟨l₁, l₂, t', hp, hp', hframe, hl₁⟩ := ih t0 hfind hmkt
      refine ⟨t :: l₁, l₂, t', by rw [hp]; rfl, ?_, hframe, ?_⟩
      · unfold handle_modify_trade_request handle_modify_loop
        rw [if_neg (by simp [hm'])]
        unfold handle_modify_trade_request at hp'
        simp [hp']
      · intro u hu
        rcases List.mem_cons.mp hu with rfl | hu'
        · exact hm'
        · exact hl₁ u hu'

/-- Witness for C10 at a concrete pool: modifying `tradeB` in the pool
`[tradeA, tradeB, tStop]` keeps every entry's identity fields in place. -/
theorem C10_modify_frame_witness :
    ((handle_modify_trade_request envW reqM [tradeA, tradeB, tStop]).pool.map
      PoolTrade.user_id) = ["u1", "u2", "u1"] := by
  obtain ⟨l₁, l₂, t', hp, hp', hframe, _⟩ :=
    C10_modify_frame envW reqM [tradeA, tradeB, tStop] tradeB
      (by decide) (by decide)
  have huid : t'.user_id = tradeB.user_id := by rw [hframe]
  have hmap : ((handle_modify_trade_request envW reqM
      [tradeA, tradeB, tStop]).pool.map PoolTrade.user_id)
      = ([tradeA, tradeB, tStop].map PoolTrade.user_id) := by
    rw [hp', hp]
    simp [huid]
  rw [hmap]
  decide

/-! ## Claim C8 — stop-order triggering on the periodic tick -/

theorem tick_step_stop_spec (env : Env) (t : PoolTrade)
    (hid : ¬ (t.trade_id = "" ∨ t.ticket = 0))
    (htk : (env.tick t.symbol).isSome) :
    ∃ rs rr, tick_step_stop env t =
      some ((if tick_trigger env t then [t] else []), rs, rr) := by
  obtain ⟨tk, htk'⟩ := Option.isSome_iff_exists.mp htk
  have h1 : t.trade_id ≠ "" := fun h => hid (Or.inl h)
  have h2 : t.ticket ≠ 0 := fun h => hid (Or.inr h)
  unfold tick_step_stop
  by_cases hs : t.order_type = "BUY_STOP" ∨ t.order_type = "SELL_STOP"
  · rw [if_pos hs, htk']
    dsimp only
    by_cases htr : (t.order_type = "BUY_STOP" ∧ tk.bid ≥ t.entry_price) ∨
        (t.order_type = "SELL_STOP" ∧ tk.bid ≤ t.entry_price)
    · have htrig : tick_trigger env t = true := by
        unfold tick_trigger
        rw [htk']
        simp only [Bool.and_eq_true, Bool.or_eq_true, decide_eq_true_eq]
        exact ⟨⟨h1, h2⟩, htr⟩
      rw [if_pos htr]
      by_cases hex : env.market_exec t
      · rw [if_pos hex]
        exact ⟨[mkResp t.trade_id t.trade_code t.user_id "EXECUTED" "" none 0 0],
          [t], by simp [htrig]⟩
      · rw [if_neg hex]
        exact ⟨[], [], by simp [htrig]⟩
    · have htrig : tick_trigger env t = false := by
        unfold tick_trigger
        rw [htk']
        simp only [Bool.and_eq_false_iff, Bool.or_eq_false_iff,
          decide_eq_false_iff_not]
        right
        exact ⟨fun h => htr (Or.inl h), fun h => htr (Or.inr h)⟩
      rw [if_neg htr]
      exact ⟨[], [], by simp [htrig]⟩
  · rw [if_neg hs]
    have htrig : tick_trigger env t = false := by
      unfold tick_trigger
      rw [htk']
      have hb1 : decide (t.order_type = "BUY_STOP" ∧ tk.bid ≥ t.entry_price) = false := by
        simp only [decide_eq_false_iff_not]
        exact fun h => hs (Or.inl h.1)
      have hb2 : decide (t.order_type = "SELL_STOP" ∧ tk.bid ≤ t.entry_price) = false := by
        simp only [decide_eq_false_iff_not]
        exact fun h => hs (Or.inr h.1)
      simp [hb1, hb2]
    exact ⟨[], [], by simp [htrig]⟩

theorem process_tick_loop_no_expiry (env : Env) :
    ∀ (fuel : Nat) (pool : List PoolTrade) (i : Nat),
      pool.length ≤ fuel + i →
      (∀ t ∈ pool, ¬ (t.expiration > 0 ∧ t.expiration ≤ env.now)) →
      (∀ t ∈ pool, (env.tick t.symbol).isSome) →
      ∃ out, process_tick_loop env fuel pool i = some out ∧
        out.pool = pool ∧
        out.invoked = (pool.drop i).filter (tick_trigger env) := by
  intro fuel
  induction fuel with
  | zero =>
    intro pool i hlen _ _
    refine ⟨_, rfl, rfl, ?_⟩
    rw [List.drop_eq_nil_of_le (by omega)]
    rfl
  | succ fuel ih =>
    intro pool i hlen hexp htk
    by_cases h : i < pool.length
    · have hdrop : pool.drop i = pool[i] :: pool.drop (i+1) :=
        List.drop_eq_getElem_cons h
      have hmem : pool[i] ∈ pool := List.getElem_mem h
      simp only [process_tick_loop]
      rw [dif_pos h]
      by_cases hskip : pool[i].trade_id = "" ∨ pool[i].ticket = 0
      · rw [if_pos hskip]
        obtain ⟨out, h1, h2, h3⟩ := ih pool (i+1) (by omega) hexp htk
        refine ⟨out, h1, h2, ?_⟩
        have htrigf : tick_trigger env pool[i] = false := by
          unfold tick_trigger
          cases henv : env.tick pool[i].symbol with
          | none => rfl
          | some tk => rcases hskip with h' | h' <;> simp [h']
        rw [hdrop, List.filter_cons]
        simp [htrigf, h3]
      · rw [if_neg hskip]
        obtain ⟨rs, rr, hstep⟩ := tick_step_stop_spec env pool[i] hskip (htk _ hmem)
        rw [hstep]
        dsimp only
        rw [if_neg (hexp _ hmem)]
        obtain ⟨out, h1, h2, h3⟩ := ih pool (i+1) (by omega) hexp htk
        rw [h1]
        dsimp only
        refine ⟨_, rfl, h2, ?_⟩
        rw [hdrop, h3, List.filter_cons]
        by_cases htr : tick_trigger env pool[i] = true
        · simp [htr]
        · have htf : tick_trigger env pool[i] = false := by simpa using htr
          simp [htf]
    · simp only [process_tick_loop]
      rw [dif_neg h]
      refine ⟨_, rfl, rfl, ?_⟩
      rw [List.drop_eq_nil_of_le (by omega)]
      rfl

/-- C8 counterexample: a BUY_STOP order resting in the pool with no venue
ticket (`ticket = 0`) and the bid quote at 150 ≥ its stop price 100 is
*not* triggered by `process_tick` — the loop skips every entry with
`ticket = 0`, while the claim quantifies over every pool-resident stop
order. -/
theorem C8_counterexample :
    tStop.order_type = "BUY_STOP" ∧
    ((envQ150.tick tStop.symbol).getD default).bid ≥ tStop.entry_price ∧
    tStop.ticket = 0 ∧
    process_tick envQ150 [tStop] =
      some { pool := [tStop], invoked := [], responses := [], removedRedis := [] } := by
  decide

/-- C8 amended: on a tick at which no pool entry has a lapsed expiration
(the periodic driver sweeps expirations immediately before `process_tick`)
and every quote lookup succeeds, `process_tick` invokes market-style
execution exactly for the pool entries with non-empty `trade_id`, non-zero
venue `ticket`, and a stop kind whose trigger condition holds — bid ≥
entry price for BUY_STOP, bid ≤ entry price for SELL_STOP — and leaves the
pool unchanged. -/
theorem C8_stop_triggers (env : Env) (pool : List PoolTrade)
    (hexp : ∀ t ∈ pool, ¬ (t.expiration > 0 ∧ t.expiration ≤ env.now))
    (htk : ∀ t ∈ pool, (env.tick t.symbol).isSome) :
    ∃ out, process_tick env pool = some out ∧ out.pool = pool ∧
      out.invoked = pool.filter (tick_trigger env) ∧
      ∀ t ∈ pool, (t ∈ out.invoked ↔ tick_trigger env t = true) := by
  obtain ⟨out, h1, h2, h3⟩ :=
    process_tick_loop_no_expiry env pool.length pool 0 (by omega) hexp htk
  rw [List.drop_zero] at h3
  refine ⟨out, h1, h2, h3, fun t ht => ?_⟩
  rw [h3]
  constructor
  · exact fun hm => (List.mem_filter.mp hm).2
  · exact fun htr => List.mem_filter.mpr ⟨ht, htr⟩

/-- Witness for the C8 amended theorem: the venue-resident BUY_STOP with
stop price 100 is invoked when the bid is 150. -/
theorem C8_stop_triggers_witness :
    (process_tick envQ150 [tStopT]).map TickOut.invoked = some [tStopT] := by
  obtain ⟨out, h1, _, h3, _⟩ :=
    C8_stop_triggers envQ150 [tStopT] (by decide) (by decide)
  rw [h1, Option.map_some', h3]
  decide

/-! ## Claim C4 — oldest-eligible matching -/

theorem best_match_loop_merge (elig : PoolTrade → Bool) :
    ∀ (l : List PoolTrade) (i : Nat) (best : ℤ) (oldest : Option ℤ),
      best_match_loop elig l i best oldest =
        cand_merge i best oldest (cand elig l) := by
  intro l
  induction l with
  | nil =>
    intro i best oldest
    cases oldest <;> rfl
  | cons t rest ih =>
    intro i best oldest
    cases oldest with
    | none =>
      cases hc : cand elig rest with
      | none =>
        by_cases he : elig t <;>
          simp [best_match_loop, cand, he, ih, hc, cand_merge]
      | some p =>
        obtain ⟨j, ts⟩ := p
        by_cases he : elig t
        · by_cases hle : t.timestamp ≤ ts <;>
            simp [best_match_loop, cand, he, hle, ih, hc, cand_merge] <;>
            split_ifs <;> omega
        · simp [best_match_loop, cand, he, ih, hc, cand_merge]
          omega
    | some o =>
      cases hc : cand elig rest with
      | none =>
        by_cases he : elig t
        · by_cases hlt : t.timestamp < o <;>
            simp [best_match_loop, cand, he, hlt, ih, hc, cand_merge] <;>
            split_ifs <;> omega
        · simp [best_match_loop, cand, he, ih, hc, cand_merge]
      | some p =>
        obtain ⟨j, ts⟩ := p
        by_cases he : elig t
        · by_cases hlt : t.timestamp < o <;> by_cases hle : t.timestamp ≤ ts <;>
            simp [best_match_loop, cand, he, hlt, hle, ih, hc, cand_merge] <;>
            first
            | omega
            | (split_ifs <;> omega)
            | (intro hx; exact absurd hx (by omega))
        · simp [best_match_loop, cand, he, ih, hc, cand_merge]
          split_ifs <;> omega

theorem cand_none_iff (elig : PoolTrade → Bool) :
    ∀ l, cand elig l = none ↔ ∀ t ∈ l, elig t = false := by
  intro l
  induction l with
  | nil => simp [cand]
  | cons t rest ih =>
    simp only [cand]
    cases hc : cand elig rest with
    | none =>
      by_cases he : elig t
      · simp [he]
      · rw [if_neg he]
        constructor
        · intro _ u hu
          rcases List.mem_cons.mp hu with rfl | hu2
          · simpa using he
          · exact ih.mp hc u hu2
        · intro _
          rfl
    | some p =>
      constructor
      · intro h
        obtain ⟨j, ts⟩ := p
        by_cases hcnd : elig t = true ∧ t.timestamp ≤ ts <;> simp [hcnd] at h
      · intro hall
        have hrest := ih.mpr (fun u hu => hall u (List.mem_cons_of_mem t hu))
        rw [hc] at hrest
        exact Option.noConfusion hrest

theorem cand_spec (elig : PoolTrade → Bool) :
    ∀ (l : List PoolTrade) (j : Nat) (ts : ℤ), cand elig l = some (j, ts) →
      ∃ hj : j < l.length, elig l[j] = true ∧ l[j].timestamp = ts ∧
        ∀ k (hk : k < l.length), elig l[k] = true →
          ts ≤ l[k].timestamp ∧ (l[k].timestamp = ts → j ≤ k) := by
  intro l
  induction l with
  | nil => intro j ts h; simp [cand] at h
  | cons t rest ih =>
    intro j ts h
    simp only [cand] at h
    cases hc : cand elig rest with
    | none =>
      rw [hc] at h
      dsimp only at h
      by_cases he : elig t
      · rw [if_pos he] at h
        simp only [Option.some.injEq, Prod.mk.injEq] at h
        obtain ⟨rfl, rfl⟩ := h
        refine ⟨by simp, by simpa using he, rfl, ?_⟩
        intro k hk hek
        cases k with
        | zero => simp
        | succ k =>
          exfalso
          have hall := (cand_none_iff elig rest).mp hc
          have hk2 : k < rest.length := by simpa using hk
          have hfalse := hall _ (List.getElem_mem hk2)
          simp only [List.getElem_cons_succ] at hek
          rw [hfalse] at hek
          exact Bool.false_ne_true hek
      · rw [if_neg he] at h
        exact absurd h (by simp)
    | some p =>
      obtain ⟨j', ts'⟩ := p
      rw [hc] at h
      dsimp only at h
      obtain ⟨hj', he', hts', hmin'⟩ := ih j' ts' hc
      by_cases hcnd : elig t = true ∧ t.timestamp ≤ ts'
      · rw [if_pos hcnd] at h
        simp only [Option.some.injEq, Prod.mk.injEq] at h
        obtain ⟨rfl, rfl⟩ := h
        refine ⟨by simp, by simpa using hcnd.1, rfl, ?_⟩
        intro k hk hek
        cases k with
        | zero => simp
        | succ k =>
          simp only [List.getElem_cons_succ] at hek ⊢
          have hk' : k < rest.length := by simpa using hk
          have hle' := (hmin' k hk' hek).1
          refine ⟨le_trans hcnd.2 (hts' ▸ hle'), fun _ => by omega⟩
      · rw [if_neg hcnd] at h
        simp only [Option.some.injEq, Prod.mk.injEq] at h
        obtain ⟨rfl, rfl⟩ := h
        refine ⟨by simpa using hj', by simpa using he', by simpa using hts', ?_⟩
        intro k hk hek
        cases k with
        | zero =>
          simp only [List.getElem_cons_zero] at hek ⊢
          have hnle : ¬ t.timestamp ≤ ts' := fun hle => hcnd ⟨by simpa using hek, hle⟩
          constructor
          · omega
          · intro heq
            omega
        | succ k =>
          simp only [List.getElem_cons_succ] at hek ⊢
          have hk' : k < rest.length := by simpa using hk
          obtain ⟨h1, h2⟩ := hmin' k hk' hek
          exact ⟨h1, fun heq => by have := h2 heq; omega⟩

/-- C4: `find_matching_trade` first removes expired entries, then among the
remaining entries with non-empty `trade_id` for which `can_match_trades`
holds, returns the index of the entry with the lowest timestamp — the
first such entry in pool scan order on ties — and returns `-1` when no
entry qualifies. -/
theorem C4_find_matching_oldest (env : Env) (now : ℤ) (newT : PoolTrade)
    (pool : List PoolTrade) :
    (find_matching_trade env now newT pool).2.1 = (cleanup_trade_pool now pool).1 ∧
    ((∀ t ∈ (cleanup_trade_pool now pool).1, eligF env newT t = false) →
      (find_matching_trade env now newT pool).1 = -1) ∧
    (∀ (j : Nat) (hj : j < (cleanup_trade_pool now pool).1.length),
      eligF env newT ((cleanup_trade_pool now pool).1)[j] = true →
      ∃ (k : Nat) (hk : k < (cleanup_trade_pool now pool).1.length),
        (find_matching_trade env now newT pool).1 = (k : ℤ) ∧
        eligF env newT ((cleanup_trade_pool now pool).1)[k] = true ∧
        ∀ (m : Nat) (hm : m < (cleanup_trade_pool now pool).1.length),
          eligF env newT ((cleanup_trade_pool now pool).1)[m] = true →
          (((cleanup_trade_pool now pool).1)[k].timestamp ≤
            ((cleanup_trade_pool now pool).1)[m].timestamp ∧
          (((cleanup_trade_pool now pool).1)[m].timestamp =
            ((cleanup_trade_pool now pool).1)[k].timestamp → k ≤ m))) := by
  refine ⟨rfl, ?_, ?_⟩
  · intro hall
    show best_match_loop (eligF env newT) (cleanup_trade_pool now pool).1 0 (-1) none = -1
    rw [best_match_loop_merge, (cand_none_iff (eligF env newT) _).mpr hall]
    rfl
  · intro j hj hej
    have hne : cand (eligF env newT) (cleanup_trade_pool now pool).1 ≠ none := by
      intro hnone
      have hf := (cand_none_iff _ _).mp hnone _ (List.getElem_mem hj)
      rw [hf] at hej
      exact Bool.false_ne_true hej
    obtain ⟨⟨k, ts⟩, hc⟩ := Option.ne_none_iff_exists'.mp hne
    obtain ⟨hk, hek, hts, hmin⟩ := cand_spec _ _ _ _ hc
    refine ⟨k, hk, ?_, hek, ?_⟩
    · show best_match_loop (eligF env newT) (cleanup_trade_pool now pool).1 0 (-1) none = (k : ℤ)
      rw [best_match_loop_merge, hc]
      simp [cand_merge]
    · intro m hm hem
      obtain ⟨h1, h2⟩ := hmin m hm hem
      exact ⟨hts ▸ h1, fun heq => h2 (by rw [heq, hts])⟩

/-- Witness for C4: with no symbol information every `can_match_trades`
call fails, so no pool entry is eligible and the scan returns `-1`. -/
theorem C4_find_matching_oldest_witness :
    (find_matching_trade envNoSym 0 tMkt [tradeB]).1 = -1 :=
  (C4_find_matching_oldest envNoSym 0 tMkt [tradeB]).2.1 (by decide)

/-! ## Claim C6 — matched volume and partial fills -/

end Fxtrader
